import Mathlib

/-!
Verification development for the SlowMA-4 artwork-analysis application.

The pure computational core of the application is embedded shallowly:

* the client-side color extractor of apiService.ts
  (extractColorsFromImage, getDefaultColors, rgbToHex, rgbToHsl,
  getColorName), with image decoding modelled as an Option-valued pixel
  buffer (none models the Image onerror / missing-2d-context path);
* the vision aggregation of the educational service
  (combineVisionData, performVisualAnalysis), with each provider call
  outcome modelled as an Option (none models a rejected promise);
* the interpretation stage (analyzeWithOpenAI of apiService.ts and
  generateInitialInterpretation of the educational service), with the
  built-in JSON.parse modelled as an oracle argument returning an Option
  (none models a thrown SyntaxError) and thrown errors as Except.error;
* calculateConfidence and checkApiStatus;
* the summary compositor generateAnalysisSummary of apiService.ts.

JavaScript numbers are modelled as exact rationals, Math.round as
floor (x + 1/2) (round half toward positive infinity), and JS string /
array operations by their List-level counterparts.
-/

-- ===================================================================
-- JS numeric helpers
-- ===================================================================

-- Math.round: round half toward positive infinity.
def jsRound (x : ℚ) : ℤ := ⌊x + 1/2⌋

-- Math.round(x * 100) / 100: round to two decimal places.
def jsRound2 (x : ℚ) : ℚ := (jsRound (x * 100) : ℚ) / 100

-- Array.prototype.indexOf restricted to elements present in the list
-- (every use below applies it to an element of the list).
def jsIndexOf [DecidableEq α] (x : α) : List α → ℕ
  | [] => 0
  | y :: ys => if y = x then 0 else jsIndexOf x ys + 1

-- ===================================================================
-- Color extractor (apiService.ts, extractColorsFromImage and helpers)
-- ===================================================================

structure Pixel where
  r : ℕ
  g : ℕ
  b : ℕ
  a : ℕ

structure RGB where
  r : ℕ
  g : ℕ
  b : ℕ

structure HSL where
  h : ℤ
  s : ℤ
  l : ℤ

structure ColorPalette where
  hex : String
  rgb : RGB
  hsl : HSL
  percentage : ℚ
  name : String

-- rgbToHex: `#` followed by toString(16).slice(1) of (1<<24)+(r<<16)+(g<<8)+b.
def rgbToHex (r g b : ℕ) : String :=
  "#" ++ ((Nat.toDigits 16 (16777216 + r * 65536 + g * 256 + b)).drop 1).asString

-- rgbToHsl: standard max/min-branching conversion, computed on the
-- channels divided by 255.  hslRaw is the pre-rounding core: it returns
-- (h, s, l) with h and s left at their initial value 0 when max = min.
def hslRaw (rq gq bq : ℚ) : ℚ × ℚ × ℚ :=
  let mx := max rq (max gq bq)
  let mn := min rq (min gq bq)
  let l := (mx + mn) / 2
  if mx = mn then (0, 0, l)
  else
    let d := mx - mn
    let s := if 1/2 < l then d / (2 - mx - mn) else d / (mx + mn)
    let h := if mx = rq then (gq - bq) / d + (if gq < bq then 6 else 0)
             else if mx = gq then (bq - rq) / d + 2
             else (rq - gq) / d + 4
    (h / 6, s, l)

def rgbToHsl (r g b : ℕ) : HSL :=
  let t := hslRaw ((r : ℚ) / 255) ((g : ℚ) / 255) ((b : ℚ) / 255)
  ⟨jsRound (t.1 * 360), jsRound (t.2.1 * 100), jsRound (t.2.2 * 100)⟩

-- getColorName: coarse name from hue bands and saturation/lightness.
def getColorName (r g b : ℕ) : String :=
  let hsl := rgbToHsl r g b
  if hsl.s < 20 then
    if hsl.l > 80 then "White"
    else if hsl.l < 20 then "Black"
    else "Gray"
  else if hsl.h < 15 ∨ hsl.h > 345 then "Red"
  else if hsl.h < 45 then "Orange"
  else if hsl.h < 75 then "Yellow"
  else if hsl.h < 150 then "Green"
  else if hsl.h < 210 then "Cyan"
  else if hsl.h < 270 then "Blue"
  else if hsl.h < 330 then "Purple"
  else "Pink"

-- getDefaultColors: the hard-coded fallback palette.
def getDefaultColors : List ColorPalette :=
  [ ⟨"#FF6B6B", ⟨255, 107, 107⟩, ⟨0, 100, 71⟩, 25, "Coral Red"⟩,
    ⟨"#4ECDC4", ⟨78, 205, 196⟩, ⟨175, 60, 55⟩, 20, "Turquoise"⟩,
    ⟨"#45B7D1", ⟨69, 183, 209⟩, ⟨195, 60, 55⟩, 18, "Sky Blue"⟩,
    ⟨"#96CEB4", ⟨150, 206, 180⟩, ⟨150, 40, 70⟩, 15, "Mint Green"⟩,
    ⟨"#FFEAA7", ⟨255, 234, 167⟩, ⟨45, 100, 83⟩, 12, "Soft Yellow"⟩,
    ⟨"#DDA0DD", ⟨221, 160, 221⟩, ⟨300, 50, 75⟩, 10, "Plum"⟩ ]

-- The loop strides 40 bytes through the flat RGBA array, i.e. it visits
-- every 10th pixel of the pixel sequence.
def sampleEveryTenth (pixels : List Pixel) : List Pixel :=
  (pixels.enum.filter fun p => p.1 % 10 = 0).map Prod.snd

-- Pixels with alpha below 128 are skipped.
def keptPixels (pixels : List Pixel) : List Pixel :=
  (sampleEveryTenth pixels).filter fun p => 128 ≤ p.a

-- Math.round(c / 32) * 32 on a whole-number channel.
def quantizeChannel (c : ℕ) : ℕ := ((c + 16) / 32) * 32

def quantizedBuckets (pixels : List Pixel) : List (ℕ × ℕ × ℕ) :=
  (keptPixels pixels).map fun p =>
    (quantizeChannel p.r, quantizeChannel p.g, quantizeChannel p.b)

-- colorMap.set(key, (colorMap.get(key) || 0) + 1) on a JS Map, which
-- preserves insertion order: an association list bumped in place.
def bumpCount : List ((ℕ × ℕ × ℕ) × ℕ) → (ℕ × ℕ × ℕ) → List ((ℕ × ℕ × ℕ) × ℕ)
  | [], key => [(key, 1)]
  | (k, c) :: rest, key =>
      if k = key then (k, c + 1) :: rest else (k, c) :: bumpCount rest key

def colorMap (pixels : List Pixel) : List ((ℕ × ℕ × ℕ) × ℕ) :=
  (quantizedBuckets pixels).foldl bumpCount []

-- The percentage loop: totalPixels is colorMap.size in the source, and
-- each bucket above the 1 percent threshold becomes a palette entry with
-- its percentage rounded to two decimals.
def paletteFromCounts (m : List ((ℕ × ℕ × ℕ) × ℕ)) : List ColorPalette :=
  let totalPixels := m.length
  m.filterMap fun e =>
    let percentage : ℚ := ((e.2 : ℚ) / (totalPixels : ℚ)) * 100
    if 1 < percentage then
      some { hex := rgbToHex e.1.1 e.1.2.1 e.1.2.2,
             rgb := ⟨e.1.1, e.1.2.1, e.1.2.2⟩,
             hsl := rgbToHsl e.1.1 e.1.2.1 e.1.2.2,
             percentage := jsRound2 percentage,
             name := getColorName e.1.1 e.1.2.1 e.1.2.2 }
    else none

-- colors.sort((a, b) => b.percentage - a.percentage): Array.prototype.sort
-- is stable, modelled as a stable insertion sort on the percentage key.
def insertByPercentage (x : ColorPalette) : List ColorPalette → List ColorPalette
  | [] => [x]
  | y :: ys =>
      if y.percentage > x.percentage then y :: insertByPercentage x ys
      else x :: y :: ys

def sortByPercentage (l : List ColorPalette) : List ColorPalette :=
  l.foldr insertByPercentage []

-- extractColorsFromImage: none models the decode-failure path (Image
-- onerror, or a null 2d context), which resolves the default palette.
def extractColorsFromImage : Option (List Pixel) → List ColorPalette
  | none => getDefaultColors
  | some pixels => (sortByPercentage (paletteFromCounts (colorMap pixels))).take 6

-- ===================================================================
-- Vision aggregation (educational service: combineVisionData,
-- performVisualAnalysis)
-- ===================================================================

structure ClarifaiResult where
  labels : List String
  confidence : List ℚ

structure GoogleVisionResult where
  labels : List String
  objects : List String
  text : List String
  colors : List String
  faces : ℕ

structure MicrosoftVisionResult where
  labels : List String
  objects : List String
  text : List String
  colors : List String
  categories : List String

structure CombinedVisionData where
  labels : List String
  objects : List String
  colors : List String
  text : List String
  faces : ℕ
  categories : List String

-- .filter((x, index, self) => self.indexOf(x) === index), the JS idiom
-- keeping each first occurrence, with self the original array.
def jsDedup [DecidableEq α] (l : List α) : List α :=
  (l.enum.filter fun p => decide (jsIndexOf p.2 l = p.1)).map Prod.snd

def clarifaiLabels : Option ClarifaiResult → List String
  | some c => c.labels
  | none => []

def googleLabels : Option GoogleVisionResult → List String
  | some g => g.labels
  | none => []

def googleObjects : Option GoogleVisionResult → List String
  | some g => g.objects
  | none => []

def googleColors : Option GoogleVisionResult → List String
  | some g => g.colors
  | none => []

def googleText : Option GoogleVisionResult → List String
  | some g => g.text
  | none => []

def googleFaces : Option GoogleVisionResult → ℕ
  | some g => g.faces
  | none => 0

def microsoftLabels : Option MicrosoftVisionResult → List String
  | some m => m.labels
  | none => []

def microsoftObjects : Option MicrosoftVisionResult → List String
  | some m => m.objects
  | none => []

def microsoftColors : Option MicrosoftVisionResult → List String
  | some m => m.colors
  | none => []

def microsoftText : Option MicrosoftVisionResult → List String
  | some m => m.text
  | none => []

def microsoftCategories : Option MicrosoftVisionResult → List String
  | some m => m.categories
  | none => []

-- combineVisionData.  The Microsoft result record carries no face count,
-- so (microsoft?.faces || 0) is always 0: written as + 0 below.
def combineVisionData (clarifai : Option ClarifaiResult)
    (google : Option GoogleVisionResult)
    (microsoft : Option MicrosoftVisionResult) : CombinedVisionData :=
  { labels := jsDedup (clarifaiLabels clarifai ++ googleLabels google ++ microsoftLabels microsoft),
    objects := jsDedup (googleObjects google ++ microsoftObjects microsoft),
    colors := jsDedup (googleColors google ++ microsoftColors microsoft),
    text := jsDedup (googleText google ++ microsoftText microsoft),
    faces := googleFaces google + 0,
    categories := microsoftCategories microsoft }

structure VisionStageResult where
  clarifai : Option ClarifaiResult
  google : Option GoogleVisionResult
  microsoft : Option MicrosoftVisionResult
  combined : CombinedVisionData

-- performVisualAnalysis: the three provider calls run under
-- Promise.allSettled, so each outcome is an Option (none = rejected) and
-- the stage itself always returns a value.
def performVisualAnalysis (clarifai : Option ClarifaiResult)
    (google : Option GoogleVisionResult)
    (microsoft : Option MicrosoftVisionResult) : VisionStageResult :=
  ⟨clarifai, google, microsoft, combineVisionData clarifai google microsoft⟩

-- Claim-side formulation of first-occurrence de-duplication: walk the
-- list once, keeping each element not seen before.
def dedupSeen [DecidableEq α] (seen : List α) : List α → List α
  | [] => []
  | y :: ys => if y ∈ seen then dedupSeen seen ys else y :: dedupSeen (seen ++ [y]) ys

def dedupFirst [DecidableEq α] (l : List α) : List α := dedupSeen [] l

-- ===================================================================
-- Interpretation stage (apiService.ts analyzeWithOpenAI, educational
-- service generateInitialInterpretation)
-- ===================================================================

structure OpenAIAnalysisResult where
  artisticInsights : List String
  historicalContext : String
  technicalAnalysis : String
  emotionalImpact : String
  educationalValue : String
  compositionNotes : String
  colorTheory : String
  themes : String
  learningObjectives : List String
  discussionQuestions : List String

-- The raw object produced by JSON.parse: artisticInsights is none when
-- the key is absent or is not an array (the validation failure case).
structure OpenAIParsed where
  artisticInsights : Option (List String)
  historicalContext : String
  technicalAnalysis : String
  emotionalImpact : String
  educationalValue : String
  compositionNotes : String
  colorTheory : String
  themes : String
  learningObjectives : List String
  discussionQuestions : List String

structure InterpretationInsight where
  styleInsights : List String
  techniqueInsights : List String
  themeInsights : List String
  mediumInsights : List String
  reflectionQuestions : List String
  learningObjectives : List String

def jsWhitespace (c : Char) : Bool := c = ' ' ∨ c = '\t' ∨ c = '\n' ∨ c = '\r'

-- content.trim() on the ASCII whitespace the replies contain.
def jsTrim (s : String) : String :=
  (((s.toList.dropWhile jsWhitespace).reverse.dropWhile jsWhitespace).reverse).asString

def lbrace : Char := Char.ofNat 123

def rbrace : Char := Char.ofNat 125

-- String.prototype.indexOf / lastIndexOf with the JS minus-one-if-absent
-- convention.
def jsFirstIndexOf [DecidableEq α] (x : α) (l : List α) : ℤ :=
  if x ∈ l then (jsIndexOf x l : ℤ) else -1

def jsLastIndexOf [DecidableEq α] (x : α) (l : List α) : ℤ :=
  if x ∈ l then (l.length : ℤ) - 1 - (jsIndexOf x l.reverse : ℤ) else -1

-- Trim the reply, then cut from the first opening brace to the last
-- closing brace when both exist in that order; substring(a, b + 1) is
-- drop a followed by take (b + 1 - a).
def extractJsonSubstring (content : String) : String :=
  let cs := (jsTrim content).toList
  let firstBrace := jsFirstIndexOf lbrace cs
  let lastBrace := jsLastIndexOf rbrace cs
  if firstBrace ≠ -1 ∧ lastBrace ≠ -1 ∧ firstBrace < lastBrace then
    ((cs.drop firstBrace.toNat).take (lastBrace.toNat + 1 - firstBrace.toNat)).asString
  else jsTrim content

-- The fallback object built when parsing or validation of the reply
-- fails: the raw content is truncated into a single fabricated insight.
def openAIFallbackResult (content : String) : OpenAIAnalysisResult :=
  { artisticInsights := [content.take 200 ++ "..."],
    historicalContext := "Analysis provided by OpenAI",
    technicalAnalysis := "See artistic insights for detailed analysis",
    educationalValue := "Comprehensive analysis available in insights",
    emotionalImpact := "",
    compositionNotes := "",
    colorTheory := "",
    themes := "",
    learningObjectives := [],
    discussionQuestions := [] }

-- The artisticInsights presence / Array.isArray validation after parse.
def validateParsed (p : OpenAIParsed) : Option OpenAIAnalysisResult :=
  match p.artisticInsights with
  | some arr =>
      some { artisticInsights := arr,
             historicalContext := p.historicalContext,
             technicalAnalysis := p.technicalAnalysis,
             emotionalImpact := p.emotionalImpact,
             educationalValue := p.educationalValue,
             compositionNotes := p.compositionNotes,
             colorTheory := p.colorTheory,
             themes := p.themes,
             learningObjectives := p.learningObjectives,
             discussionQuestions := p.discussionQuestions }
  | none => none

-- analyzeWithOpenAI, from the missing-key check through the reply
-- parsing; jsonParse is the JSON.parse oracle (none = SyntaxError) and
-- content the textual reply of the completion endpoint.
def analyzeWithOpenAI (openaiKey : String)
    (jsonParse : String → Option OpenAIParsed) (content : String) :
    Except String OpenAIAnalysisResult :=
  if openaiKey = "" then Except.error "OpenAI API key not configured"
  else
    match jsonParse (extractJsonSubstring content) with
    | some parsed =>
        match validateParsed parsed with
        | some analysis => Except.ok analysis
        | none => Except.ok (openAIFallbackResult content)
    | none => Except.ok (openAIFallbackResult content)

-- generateInitialInterpretation parses the whole reply directly (no
-- brace extraction) and rethrows the parse error.
def generateInitialInterpretation (openaiKey : String)
    (jsonParse : String → Option InterpretationInsight) (content : String) :
    Except String InterpretationInsight :=
  if openaiKey = "" then Except.error "OpenAI API key required for educational analysis"
  else
    match jsonParse content with
    | some analysis => Except.ok analysis
    | none => Except.error "SyntaxError: unexpected token in JSON"

-- ===================================================================
-- Synthesis confidence (educational service calculateConfidence)
-- ===================================================================

-- The recall bundle slot consulted by calculateConfidence; a populated
-- slot is truthy regardless of its content.
structure RecallData where
  historicalContext : Option String

def calculateConfidence (visionData : CombinedVisionData)
    (initialInsights : InterpretationInsight) (recallData : RecallData) : ℚ :=
  let confidence : ℚ := 1/2
  let confidence := if 0 < visionData.labels.length then confidence + 1/10 else confidence
  let confidence := if 0 < visionData.objects.length then confidence + 1/10 else confidence
  let confidence := if 0 < visionData.colors.length then confidence + 1/10 else confidence
  let confidence := if 0 < initialInsights.styleInsights.length then confidence + 1/10 else confidence
  let confidence := if recallData.historicalContext.isSome then confidence + 1/10 else confidence
  min confidence 1

-- Claim-side count of the present upstream signals.
def presentSignalCount (visionData : CombinedVisionData)
    (initialInsights : InterpretationInsight) (recallData : RecallData) : ℕ :=
  (if 0 < visionData.labels.length then 1 else 0)
  + (if 0 < visionData.objects.length then 1 else 0)
  + (if 0 < visionData.colors.length then 1 else 0)
  + (if 0 < initialInsights.styleInsights.length then 1 else 0)
  + (if recallData.historicalContext.isSome then 1 else 0)

-- ===================================================================
-- checkApiStatus (apiService.ts)
-- ===================================================================

structure ApiKeys where
  googleVision : String
  microsoftVision : String
  microsoftEndpoint : String
  artInstitute : String
  openai : String
  rijksmuseum : String
  harvard : String
  wikipedia : String
  artsearch : String

structure ApiStatus where
  googleVision : Bool
  microsoftVision : Bool
  artInstitute : Bool
  openai : Bool
  rijksmuseum : Bool
  harvard : Bool
  metMuseum : Bool
  wikipedia : Bool
  artSearch : Bool

-- !!key is nonemptiness of the configured string; the keyed providers
-- also compare against their documented placeholder values.  artSearch
-- has no placeholder comparison in the source.
def checkApiStatus (k : ApiKeys) : ApiStatus :=
  { googleVision := decide (k.googleVision ≠ "" ∧
      k.googleVision ≠ "your_google_vision_api_key_here"),
    microsoftVision := decide (k.microsoftVision ≠ "" ∧ k.microsoftEndpoint ≠ "" ∧
      k.microsoftVision ≠ "your_microsoft_vision_api_key_here" ∧
      k.microsoftEndpoint ≠ "your_microsoft_vision_endpoint_here"),
    artInstitute := true,
    openai := decide (k.openai ≠ "" ∧ k.openai ≠ "your_openai_api_key_here"),
    rijksmuseum := true,
    harvard := decide (k.harvard ≠ "" ∧ k.harvard ≠ "your_harvard_art_museums_api_key_here"),
    metMuseum := true,
    wikipedia := true,
    artSearch := decide (k.artsearch ≠ "") }

-- ===================================================================
-- Summary compositor (apiService.ts generateAnalysisSummary)
-- ===================================================================

-- Only the fields the compositor reads; optional string fields are
-- modelled as strings with the empty string falsy, optional arrays as
-- lists with the empty list falsy, optional objects as Options.
structure ArtworkAnalysis where
  description : String
  techniques : List String
  elements : List String

structure MetMuseumArtwork where
  culture : String
  objectDate : String
  medium : String

structure WikipediaData where
  extract : String

structure ColorAnalysis where
  dominantColors : List ColorPalette
  colorHarmony : String
  colorTemperature : String
  colorMood : String

def paddingSentence : String :=
  "The artwork continues to reveal new insights upon repeated viewing, demonstrating the depth of artistic expression."

-- The twenty topic slots, in source order; every branch of the source
-- pushes exactly one sentence, so the build phase is a twenty-element
-- list of conditionals.
def summarySlots (results : List ArtworkAnalysis)
    (openAIAnalysis : Option OpenAIAnalysisResult)
    (metMuseumData : Option MetMuseumArtwork)
    (colorAnalysis : Option ColorAnalysis)
    (wikipediaData : Option WikipediaData)
    (similarArtworks : List ArtworkAnalysis) : List String :=
  [ -- 1. opening visual description
    (match results with
     | r :: _ =>
        if r.description ≠ "" then r.description
        else "This artwork presents a compelling visual composition that invites careful observation and analysis."
     | [] => "This artwork presents a compelling visual composition that invites careful observation and analysis."),
    -- 2. technical analysis from vision APIs
    (match results with
     | r :: _ =>
        if r.techniques ≠ [] then
          "The artwork demonstrates sophisticated technical mastery through " ++
            String.intercalate ", " (r.techniques.take 3) ++ "."
        else "The technical execution reveals careful attention to artistic principles and skilled craftsmanship."
     | [] => "The technical execution reveals careful attention to artistic principles and skilled craftsmanship."),
    -- 3. compositional elements
    (match results with
     | r :: _ =>
        if r.elements ≠ [] then
          "Key compositional elements include " ++ String.intercalate ", " (r.elements.take 3) ++ "."
        else "The composition demonstrates thoughtful arrangement of visual elements that guide the viewer\x27s eye."
     | [] => "The composition demonstrates thoughtful arrangement of visual elements that guide the viewer\x27s eye."),
    -- 4. dominant colors
    (match colorAnalysis with
     | some c =>
        if 0 < c.dominantColors.length then
          "The dominant color palette features " ++
            String.intercalate ", " ((c.dominantColors.take 3).map ColorPalette.name) ++
            ", creating a visually cohesive aesthetic."
        else "The color choices demonstrate careful consideration of visual harmony and emotional impact."
     | none => "The color choices demonstrate careful consideration of visual harmony and emotional impact."),
    -- 5. color temperature
    (match colorAnalysis with
     | some c =>
        if c.colorTemperature ≠ "" then
          "The " ++ c.colorTemperature.toLower ++ " creates a specific atmospheric quality."
        else "The color temperature contributes to the overall mood and emotional resonance of the piece."
     | none => "The color temperature contributes to the overall mood and emotional resonance of the piece."),
    -- 6. color harmony
    (match colorAnalysis with
     | some c =>
        if c.colorHarmony ≠ "" then
          c.colorHarmony ++ " This demonstrates advanced understanding of color relationships."
        else "The artist employs sophisticated color relationships that create visual harmony and balance."
     | none => "The artist employs sophisticated color relationships that create visual harmony and balance."),
    -- 7. color mood
    (match colorAnalysis with
     | some c =>
        if c.colorMood ≠ "" then
          c.colorMood ++ " These choices reveal the artist\x27s intention to evoke specific feelings."
        else "The color choices work together to create a distinct emotional atmosphere that enhances the artwork\x27s impact."
     | none => "The color choices work together to create a distinct emotional atmosphere that enhances the artwork\x27s impact."),
    -- 8. first OpenAI artistic insight
    (match openAIAnalysis with
     | some oa =>
        match oa.artisticInsights with
        | i0 :: _ => i0
        | [] => "The artwork reveals the artist\x27s unique perspective and creative vision through thoughtful visual choices."
     | none => "The artwork reveals the artist\x27s unique perspective and creative vision through thoughtful visual choices."),
    -- 9. second OpenAI artistic insight
    (match openAIAnalysis with
     | some oa =>
        match oa.artisticInsights with
        | _ :: i1 :: _ => i1
        | _ => "The composition demonstrates careful planning and artistic intention in every element placement."
     | none => "The composition demonstrates careful planning and artistic intention in every element placement."),
    -- 10. composition notes
    (match openAIAnalysis with
     | some oa =>
        if oa.compositionNotes ≠ "" then oa.compositionNotes
        else "The arrangement of visual elements creates a dynamic flow that engages the viewer throughout the composition."
     | none => "The arrangement of visual elements creates a dynamic flow that engages the viewer throughout the composition."),
    -- 11. color theory
    (match openAIAnalysis with
     | some oa =>
        if oa.colorTheory ≠ "" then oa.colorTheory
        else "The artist\x27s understanding of color theory is evident in the sophisticated palette and color relationships."
     | none => "The artist\x27s understanding of color theory is evident in the sophisticated palette and color relationships."),
    -- 12. technical analysis
    (match openAIAnalysis with
     | some oa =>
        if oa.technicalAnalysis ≠ "" then oa.technicalAnalysis
        else "The technical execution reveals mastery of artistic materials and techniques appropriate to the work\x27s purpose."
     | none => "The technical execution reveals mastery of artistic materials and techniques appropriate to the work\x27s purpose."),
    -- 13. themes
    (match openAIAnalysis with
     | some oa =>
        if oa.themes ≠ "" then
          "The artwork explores themes of " ++ oa.themes.toLower ++ ", adding depth to its visual impact."
        else "The artwork communicates meaning through its visual language, inviting viewers to engage with its underlying themes."
     | none => "The artwork communicates meaning through its visual language, inviting viewers to engage with its underlying themes."),
    -- 14. emotional impact
    (match openAIAnalysis with
     | some oa =>
        if oa.emotionalImpact ≠ "" then oa.emotionalImpact
        else "The emotional resonance of the piece demonstrates the artist\x27s ability to connect with viewers on a profound level."
     | none => "The emotional resonance of the piece demonstrates the artist\x27s ability to connect with viewers on a profound level."),
    -- 15. historical and cultural context from the Met
    (match metMuseumData with
     | some m =>
        if m.culture ≠ "" ∧ m.objectDate ≠ "" then
          "Created in the " ++ m.objectDate ++ " period, this work reflects " ++ m.culture ++
            " cultural traditions and artistic values."
        else if m.medium ≠ "" then
          "The use of " ++ m.medium.toLower ++ " reflects traditional artistic practices and material choices."
        else "This artwork connects to broader artistic traditions and cultural contexts that enhance its significance."
     | none => "The artwork connects to broader artistic traditions and cultural contexts that enhance its significance."),
    -- 16. medium
    (match metMuseumData with
     | some m =>
        if m.medium ≠ "" then
          "The choice of " ++ m.medium.toLower ++
            " as the primary medium demonstrates thoughtful consideration of material properties and artistic intent."
        else "The artist\x27s choice of materials reveals careful consideration of how different media can enhance the artwork\x27s expressive potential."
     | none => "The artist\x27s choice of materials reveals careful consideration of how different media can enhance the artwork\x27s expressive potential."),
    -- 17. Wikipedia educational context
    (match wikipediaData with
     | some w =>
        if w.extract ≠ "" then
          let e := (w.extract.take 150).trim
          if e ≠ "" then "Educational context reveals that " ++ e.toLower ++ "..."
          else "The artwork contributes to our understanding of artistic traditions and cultural expression."
        else "The artwork contributes to our understanding of artistic traditions and cultural expression."
     | none => "The artwork contributes to our understanding of artistic traditions and cultural expression."),
    -- 18. learning objectives
    (match openAIAnalysis with
     | some oa =>
        if oa.learningObjectives ≠ [] then
          "Students studying this work can develop skills in " ++
            String.intercalate " and " (oa.learningObjectives.take 2) ++
            ", enhancing their artistic understanding."
        else "This artwork provides valuable learning opportunities for developing visual literacy and artistic appreciation."
     | none => "This artwork provides valuable learning opportunities for developing visual literacy and artistic appreciation."),
    -- 19. discussion questions
    (match openAIAnalysis with
     | some oa =>
        match oa.discussionQuestions with
        | q0 :: _ =>
            "Engaging with this artwork through questions like \x22" ++ q0 ++
              "\x22 encourages deeper critical thinking."
        | [] => "The artwork invites viewers to engage in critical thinking about artistic choices, cultural meaning, and personal interpretation."
     | none => "The artwork invites viewers to engage in critical thinking about artistic choices, cultural meaning, and personal interpretation."),
    -- 20. conclusion
    (if 0 < similarArtworks.length then
      "This artwork\x27s significance is enhanced when considered alongside similar works, demonstrating its place within broader artistic movements."
     else
      "This artwork represents a meaningful contribution to visual culture, demonstrating the power of art to communicate, inspire, and transform.") ]

-- while (summary.length < 40) summary.push(paddingSentence)
def padSummary (summary : List String) : List String :=
  if summary.length < 40 then padSummary (summary ++ [paddingSentence]) else summary
termination_by 40 - summary.length
decreasing_by
  simp [List.length_append]
  omega

def generateAnalysisSummary (results : List ArtworkAnalysis)
    (openAIAnalysis : Option OpenAIAnalysisResult)
    (metMuseumData : Option MetMuseumArtwork)
    (colorAnalysis : Option ColorAnalysis)
    (wikipediaData : Option WikipediaData)
    (similarArtworks : List ArtworkAnalysis) : String :=
  String.intercalate " "
    ((padSummary (summarySlots results openAIAnalysis metMuseumData colorAnalysis
        wikipediaData similarArtworks)).take 40)

-- Claim-side compositor: the twenty topic slots followed by twenty
-- copies of the padding sentence, joined with single spaces.
def composeSummaryUnits (results : List ArtworkAnalysis)
    (openAIAnalysis : Option OpenAIAnalysisResult)
    (metMuseumData : Option MetMuseumArtwork)
    (colorAnalysis : Option ColorAnalysis)
    (wikipediaData : Option WikipediaData)
    (similarArtworks : List ArtworkAnalysis) : List String :=
  summarySlots results openAIAnalysis metMuseumData colorAnalysis wikipediaData similarArtworks
    ++ List.replicate 20 paddingSentence

def composeSummary (results : List ArtworkAnalysis)
    (openAIAnalysis : Option OpenAIAnalysisResult)
    (metMuseumData : Option MetMuseumArtwork)
    (colorAnalysis : Option ColorAnalysis)
    (wikipediaData : Option WikipediaData)
    (similarArtworks : List ArtworkAnalysis) : String :=
  String.intercalate " "
    (composeSummaryUnits results openAIAnalysis metMuseumData colorAnalysis
      wikipediaData similarArtworks)

-- ===================================================================
-- Helper lemmas
-- ===================================================================

theorem padSummary_eq_aux (n : ℕ) :
    ∀ l : List String, 40 - l.length ≤ n →
      padSummary l = l ++ List.replicate (40 - l.length) paddingSentence := by
  induction n with
  | zero =>
      intro l h
      have hlen : ¬ l.length < 40 := by omega
      have hz : 40 - l.length = 0 := by omega
      rw [padSummary, if_neg hlen, hz, List.replicate_zero, List.append_nil]
  | succ n ih =>
      intro l h
      by_cases hlen : l.length < 40
      · rw [padSummary, if_pos hlen,
          ih (l ++ [paddingSentence]) (by simp [List.length_append]; omega)]
        have hsub : 40 - l.length = (40 - (l ++ [paddingSentence]).length) + 1 := by
          simp [List.length_append]
          omega
        rw [hsub, List.replicate_succ, List.append_assoc, List.singleton_append]
      · have hz : 40 - l.length = 0 := by omega
        rw [padSummary, if_neg hlen, hz, List.replicate_zero, List.append_nil]

theorem padSummary_eq (l : List String) :
    padSummary l = l ++ List.replicate (40 - l.length) paddingSentence :=
  padSummary_eq_aux (40 - l.length) l le_rfl

theorem jsIndexOf_self_cons [DecidableEq α] (y : α) (ys : List α) :
    jsIndexOf y (y :: ys) = 0 := by
  simp [jsIndexOf]

theorem jsIndexOf_lt_length [DecidableEq α] {x : α} {l : List α} (h : x ∈ l) :
    jsIndexOf x l < l.length := by
  induction l with
  | nil => cases h
  | cons y ys ih =>
      by_cases hy : y = x
      · simp [jsIndexOf, hy]
      · have hx : x ∈ ys := by
          cases h with
          | head => exact absurd rfl hy
          | tail _ h => exact h
        simp [jsIndexOf, hy]
        exact ih hx

theorem jsIndexOf_append_of_mem [DecidableEq α] {x : α} {pre rest : List α}
    (h : x ∈ pre) : jsIndexOf x (pre ++ rest) = jsIndexOf x pre := by
  induction pre with
  | nil => cases h
  | cons y ys ih =>
      by_cases hy : y = x
      · simp [jsIndexOf, hy]
      · have hx : x ∈ ys := by
          cases h with
          | head => exact absurd rfl hy
          | tail _ h => exact h
        simp [jsIndexOf, hy, ih hx]

theorem jsIndexOf_append_of_not_mem [DecidableEq α] {x : α} {pre rest : List α}
    (h : x ∉ pre) : jsIndexOf x (pre ++ rest) = pre.length + jsIndexOf x rest := by
  induction pre with
  | nil => simp
  | cons y ys ih =>
      have hy : y ≠ x := fun hxy => h (hxy ▸ List.mem_cons_self y ys)
      have hx : x ∉ ys := fun hxy => h (List.mem_cons_of_mem y hxy)
      simp [jsIndexOf, hy, ih hx]
      omega

theorem dedupSeen_congr [DecidableEq α] {s t : List α}
    (hst : ∀ a, a ∈ s ↔ a ∈ t) : ∀ l : List α, dedupSeen s l = dedupSeen t l := by
  intro l
  induction l generalizing s t with
  | nil => simp [dedupSeen]
  | cons y ys ih =>
      by_cases hy : y ∈ s
      · rw [dedupSeen, if_pos hy, dedupSeen, if_pos ((hst y).mp hy)]
        exact ih hst
      · rw [dedupSeen, if_neg hy, dedupSeen, if_neg (fun hc => hy ((hst y).mpr hc))]
        refine congrArg (y :: ·) (ih ?_)
        intro a
        simp only [List.mem_append, List.mem_singleton]
        constructor
        · rintro (ha | ha)
          · exact Or.inl ((hst a).mp ha)
          · exact Or.inr ha
        · rintro (ha | ha)
          · exact Or.inl ((hst a).mpr ha)
          · exact Or.inr ha

theorem jsDedup_aux [DecidableEq α] :
    ∀ (rest pre : List α),
      ((List.enumFrom pre.length rest).filter
          fun p => decide (jsIndexOf p.2 (pre ++ rest) = p.1)).map Prod.snd
        = dedupSeen pre rest := by
  intro rest
  induction rest with
  | nil => intro pre; simp [dedupSeen]
  | cons y ys ih =>
      intro pre
      rw [List.enumFrom_cons, List.filter_cons]
      have hrw : pre ++ y :: ys = (pre ++ [y]) ++ ys := by
        rw [List.append_assoc, List.singleton_append]
      by_cases hy : y ∈ pre
      · have hlt : jsIndexOf y (pre ++ y :: ys) < pre.length := by
          rw [jsIndexOf_append_of_mem hy]
          exact jsIndexOf_lt_length hy
        have hne : ¬ (jsIndexOf y (pre ++ y :: ys) = pre.length) := by omega
        rw [if_neg (by simpa using hne)]
        rw [dedupSeen, if_pos hy]
        have := ih (pre ++ [y])
        rw [List.length_append, List.length_singleton] at this
        rw [hrw, this]
        refine dedupSeen_congr ?_ ys
        intro a
        simp only [List.mem_append, List.mem_singleton]
        constructor
        · rintro (ha | ha)
          · exact ha
          · exact ha ▸ hy
        · intro ha; exact Or.inl ha
      · have heq : jsIndexOf y (pre ++ y :: ys) = pre.length := by
          rw [jsIndexOf_append_of_not_mem hy, jsIndexOf_self_cons]
          omega
        rw [if_pos (by simpa using heq), List.map_cons]
        rw [dedupSeen, if_neg hy]
        have := ih (pre ++ [y])
        rw [List.length_append, List.length_singleton] at this
        rw [hrw, this]

theorem jsDedup_eq_dedupFirst [DecidableEq α] (l : List α) :
    jsDedup l = dedupFirst l := by
  have := jsDedup_aux l ([] : List α)
  simpa [jsDedup, dedupFirst, List.enum_eq_enumFrom] using this

theorem mem_insertByPercentage {a x : ColorPalette} {l : List ColorPalette} :
    a ∈ insertByPercentage x l ↔ a = x ∨ a ∈ l := by
  induction l with
  | nil => simp [insertByPercentage]
  | cons y ys ih =>
      by_cases hc : x.percentage < y.percentage
      · rw [insertByPercentage, if_pos hc]
        simp only [List.mem_cons, ih]
        tauto
      · rw [insertByPercentage, if_neg hc]
        simp only [List.mem_cons]

theorem pairwise_insertByPercentage {x : ColorPalette} {l : List ColorPalette}
    (h : List.Pairwise (fun a b => b.percentage ≤ a.percentage) l) :
    List.Pairwise (fun a b => b.percentage ≤ a.percentage) (insertByPercentage x l) := by
  induction l with
  | nil => simp [insertByPercentage]
  | cons y ys ih =>
      rw [List.pairwise_cons] at h
      obtain ⟨hy, hys⟩ := h
      by_cases hc : x.percentage < y.percentage
      · rw [insertByPercentage, if_pos hc, List.pairwise_cons]
        refine ⟨?_, ih hys⟩
        intro b hb
        rcases mem_insertByPercentage.mp hb with hb | hb
        · exact hb ▸ le_of_lt hc
        · exact hy b hb
      · rw [insertByPercentage, if_neg hc, List.pairwise_cons]
        refine ⟨?_, List.pairwise_cons.mpr ⟨hy, hys⟩⟩
        intro b hb
        rcases List.mem_cons.mp hb with hb | hb
        · exact hb ▸ le_of_not_lt hc
        · exact le_trans (hy b hb) (le_of_not_lt hc)

theorem mem_sortByPercentage {a : ColorPalette} {l : List ColorPalette} :
    a ∈ sortByPercentage l ↔ a ∈ l := by
  induction l with
  | nil => simp [sortByPercentage]
  | cons y ys ih =>
      rw [sortByPercentage, List.foldr_cons]
      rw [sortByPercentage] at ih
      rw [mem_insertByPercentage, ih, List.mem_cons]

theorem pairwise_sortByPercentage (l : List ColorPalette) :
    List.Pairwise (fun a b => b.percentage ≤ a.percentage) (sortByPercentage l) := by
  induction l with
  | nil => simp [sortByPercentage]
  | cons y ys ih =>
      rw [sortByPercentage, List.foldr_cons]
      rw [sortByPercentage] at ih
      exact pairwise_insertByPercentage ih

theorem jsRound_nonneg {x : ℚ} (h : 0 ≤ x) : 0 ≤ jsRound x := by
  rw [jsRound]
  exact Int.le_floor.mpr (by push_cast; linarith)

theorem jsRound_le {x : ℚ} {n : ℤ} (h : x ≤ (n : ℚ)) : jsRound x ≤ n := by
  have hlt : jsRound x < n + 1 := by
    rw [jsRound]
    exact Int.floor_lt.mpr (by push_cast; linarith)
  omega

theorem one_le_jsRound2 {p : ℚ} (h : 1 < p) : 1 ≤ jsRound2 p := by
  rw [jsRound2, le_div_iff₀ (by norm_num : (0:ℚ) < 100)]
  have h100 : (100 : ℤ) ≤ jsRound (p * 100) := by
    rw [jsRound]
    exact Int.le_floor.mpr (by push_cast; linarith)
  calc (1 : ℚ) * 100 = ((100 : ℤ) : ℚ) := by norm_num
    _ ≤ (jsRound (p * 100) : ℚ) := by exact_mod_cast h100

theorem hslRaw_bounds {rq gq bq : ℚ}
    (h0r : 0 ≤ rq) (h1r : rq ≤ 1) (h0g : 0 ≤ gq) (h1g : gq ≤ 1)
    (h0b : 0 ≤ bq) (h1b : bq ≤ 1) :
    (0 ≤ (hslRaw rq gq bq).1 ∧ (hslRaw rq gq bq).1 ≤ 1) ∧
    (0 ≤ (hslRaw rq gq bq).2.1 ∧ (hslRaw rq gq bq).2.1 ≤ 1) ∧
    (0 ≤ (hslRaw rq gq bq).2.2 ∧ (hslRaw rq gq bq).2.2 ≤ 1) := by
  simp only [hslRaw]
  set mx := max rq (max gq bq) with hmxe
  set mn := min rq (min gq bq) with hmne
  have hrmx : rq ≤ mx := le_max_left _ _
  have hgmx : gq ≤ mx := le_trans (le_max_left _ _) (le_max_right _ _)
  have hbmx : bq ≤ mx := le_trans (le_max_right _ _) (le_max_right _ _)
  have hmnr : mn ≤ rq := min_le_left _ _
  have hmng : mn ≤ gq := le_trans (min_le_right _ _) (min_le_left _ _)
  have hmnb : mn ≤ bq := le_trans (min_le_right _ _) (min_le_right _ _)
  have hmx1 : mx ≤ 1 := max_le h1r (max_le h1g h1b)
  have hmn0 : 0 ≤ mn := le_min h0r (le_min h0g h0b)
  have hmnmx : mn ≤ mx := le_trans hmnr hrmx
  have hl0 : 0 ≤ (mx + mn) / 2 := by linarith
  have hl1 : (mx + mn) / 2 ≤ 1 := by linarith
  by_cases hc : mx = mn
  · rw [if_pos hc]
    exact ⟨⟨le_refl 0, by norm_num⟩, ⟨le_refl 0, by norm_num⟩, hl0, hl1⟩
  · rw [if_neg hc]
    have hlt : mn < mx := lt_of_le_of_ne hmnmx (Ne.symm hc)
    have hd : 0 < mx - mn := sub_pos.mpr hlt
    have habs : ∀ x y : ℚ, mn ≤ x → x ≤ mx → mn ≤ y → y ≤ mx →
        (-1 : ℚ) ≤ (x - y) / (mx - mn) ∧ (x - y) / (mx - mn) ≤ 1 := by
      intro x y hx1 hx2 hy1 hy2
      constructor
      · rw [le_div_iff₀ hd]; linarith
      · rw [div_le_one hd]; linarith
    have hh : 0 ≤ (if mx = rq then (gq - bq) / (mx - mn) + (if gq < bq then 6 else 0)
          else if mx = gq then (bq - rq) / (mx - mn) + 2
          else (rq - gq) / (mx - mn) + 4) ∧
        (if mx = rq then (gq - bq) / (mx - mn) + (if gq < bq then 6 else 0)
          else if mx = gq then (bq - rq) / (mx - mn) + 2
          else (rq - gq) / (mx - mn) + 4) ≤ 6 := by
      by_cases hr : mx = rq
      · rw [if_pos hr]
        by_cases hgb : gq < bq
        · rw [if_pos hgb]
          have h1 := (habs gq bq hmng hgmx hmnb hbmx).1
          have h2 : (gq - bq) / (mx - mn) ≤ 0 :=
            div_nonpos_of_nonpos_of_nonneg (by linarith) (le_of_lt hd)
          constructor <;> linarith
        · rw [if_neg hgb]
          have hq0 : 0 ≤ (gq - bq) / (mx - mn) :=
            div_nonneg (by linarith [le_of_not_lt hgb]) (le_of_lt hd)
          have hq1 := (habs gq bq hmng hgmx hmnb hbmx).2
          constructor <;> linarith
      · rw [if_neg hr]
        by_cases hg : mx = gq
        · rw [if_pos hg]
          have := habs bq rq hmnb hbmx hmnr hrmx
          constructor <;> linarith [this.1, this.2]
        · rw [if_neg hg]
          have := habs rq gq hmnr hrmx hmng hgmx
          constructor <;> linarith [this.1, this.2]
    have hs : 0 ≤ (if 1/2 < (mx + mn) / 2 then (mx - mn) / (2 - mx - mn)
          else (mx - mn) / (mx + mn)) ∧
        (if 1/2 < (mx + mn) / 2 then (mx - mn) / (2 - mx - mn)
          else (mx - mn) / (mx + mn)) ≤ 1 := by
      by_cases hl : 1/2 < (mx + mn) / 2
      · rw [if_pos hl]
        have hmnlt1 : mn < 1 := lt_of_lt_of_le hlt hmx1
        have hden : 0 < 2 - mx - mn := by linarith
        refine ⟨div_nonneg (le_of_lt hd) (le_of_lt hden), ?_⟩
        rw [div_le_one hden]; linarith
      · rw [if_neg hl]
        have hden : 0 < mx + mn := by linarith
        refine ⟨div_nonneg (le_of_lt hd) (le_of_lt hden), ?_⟩
        rw [div_le_one hden]; linarith
    refine ⟨⟨?_, ?_⟩, ⟨hs.1, hs.2⟩, hl0, hl1⟩
    · exact div_nonneg hh.1 (by norm_num)
    · rw [div_le_one (by norm_num : (0:ℚ) < 6)]; exact hh.2

theorem rgbToHsl_bounds {r g b : ℕ} (hr : r ≤ 255) (hg : g ≤ 255) (hb : b ≤ 255) :
    (0 ≤ (rgbToHsl r g b).h ∧ (rgbToHsl r g b).h ≤ 360) ∧
    (0 ≤ (rgbToHsl r g b).s ∧ (rgbToHsl r g b).s ≤ 100) ∧
    (0 ≤ (rgbToHsl r g b).l ∧ (rgbToHsl r g b).l ≤ 100) := by
  have hch : ∀ c : ℕ, c ≤ 255 → 0 ≤ (c : ℚ) / 255 ∧ (c : ℚ) / 255 ≤ 1 := by
    intro c hc
    constructor
    · positivity
    · rw [div_le_one (by norm_num : (0:ℚ) < 255)]
      exact_mod_cast hc
  obtain ⟨h0r, h1r⟩ := hch r hr
  obtain ⟨h0g, h1g⟩ := hch g hg
  obtain ⟨h0b, h1b⟩ := hch b hb
  obtain ⟨⟨hH0, hH1⟩, ⟨hS0, hS1⟩, hL0, hL1⟩ := hslRaw_bounds h0r h1r h0g h1g h0b h1b
  simp only [rgbToHsl]
  refine ⟨⟨?_, ?_⟩, ⟨?_, ?_⟩, ?_, ?_⟩
  · exact jsRound_nonneg (by positivity)
  · exact jsRound_le (by push_cast; nlinarith)
  · exact jsRound_nonneg (by positivity)
  · exact jsRound_le (by push_cast; nlinarith)
  · exact jsRound_nonneg (by positivity)
  · exact jsRound_le (by push_cast; nlinarith)

-- ===================================================================
-- Claim theorems
-- ===================================================================

/-- C4: on the decode-error path the color extractor returns exactly the
hard-coded six-entry default palette, literally equal to the default
samples, and does not raise. -/
theorem extractColors_decode_failure_default :
    extractColorsFromImage none =
      [ ⟨"#FF6B6B", ⟨255, 107, 107⟩, ⟨0, 100, 71⟩, 25, "Coral Red"⟩,
        ⟨"#4ECDC4", ⟨78, 205, 196⟩, ⟨175, 60, 55⟩, 20, "Turquoise"⟩,
        ⟨"#45B7D1", ⟨69, 183, 209⟩, ⟨195, 60, 55⟩, 18, "Sky Blue"⟩,
        ⟨"#96CEB4", ⟨150, 206, 180⟩, ⟨150, 40, 70⟩, 15, "Mint Green"⟩,
        ⟨"#FFEAA7", ⟨255, 234, 167⟩, ⟨45, 100, 83⟩, 12, "Soft Yellow"⟩,
        ⟨"#DDA0DD", ⟨221, 160, 221⟩, ⟨300, 50, 75⟩, 10, "Plum"⟩ ] := rfl

/-- C2 (counterexample): on an image whose only sampled pixel is
transparent, no quantized bucket exists, and the extractor returns the
empty sequence, contradicting the claim that the result is never empty. -/
theorem extractColors_empty_on_transparent :
    extractColorsFromImage (some [⟨0, 0, 0, 0⟩]) = [] := rfl

/-- C2 (amended): for every decode outcome the extractor returns at most
six entries, sorted by descending stored percentage, each stored
percentage at least 1 (it is a share strictly above 1 percent rounded to
two decimals); the decode-error path returns the default palette.  When
no bucket survives the threshold the result can be empty. -/
theorem extractColors_bounded_sorted (decoded : Option (List Pixel)) :
    (extractColorsFromImage decoded).length ≤ 6 ∧
    List.Pairwise (fun a b => b.percentage ≤ a.percentage) (extractColorsFromImage decoded) ∧
    (∀ c ∈ extractColorsFromImage decoded, (1 : ℚ) ≤ c.percentage) ∧
    (decoded = none → extractColorsFromImage decoded = getDefaultColors) := by
  cases decoded with
  | none =>
      refine ⟨?_, ?_, ?_, fun _ => rfl⟩
      · simp [extractColorsFromImage, getDefaultColors]
      · have h : extractColorsFromImage none = getDefaultColors := rfl
        rw [h, getDefaultColors]
        norm_num [List.pairwise_cons]
      · intro c hc
        have h : extractColorsFromImage none = getDefaultColors := rfl
        rw [h] at hc
        simp only [getDefaultColors, List.mem_cons, List.not_mem_nil, or_false] at hc
        rcases hc with h1 | h1 | h1 | h1 | h1 | h1 <;> subst h1 <;> norm_num
  | some pixels =>
      refine ⟨?_, ?_, ?_, fun h => absurd h (Option.some_ne_none pixels)⟩
      · simp only [extractColorsFromImage, List.length_take]
        exact min_le_left 6 _
      · exact List.Pairwise.sublist (List.take_sublist _ _) (pairwise_sortByPercentage _)
      · intro c hc
        simp only [extractColorsFromImage] at hc
        have h2 : c ∈ sortByPercentage (paletteFromCounts (colorMap pixels)) :=
          List.take_subset _ _ hc
        have h3 : c ∈ paletteFromCounts (colorMap pixels) := mem_sortByPercentage.mp h2
        simp only [paletteFromCounts, List.mem_filterMap] at h3
        obtain ⟨e, _, heq⟩ := h3
        by_cases hgt : 1 < ((e.2 : ℚ) / (((colorMap pixels).length : ℕ) : ℚ)) * 100
        · rw [if_pos hgt] at heq
          have hcp : c.percentage = jsRound2 (((e.2 : ℚ) / (((colorMap pixels).length : ℕ) : ℚ)) * 100) := by
            cases Option.some.inj heq
            rfl
          rw [hcp]
          exact one_le_jsRound2 hgt
        · rw [if_neg hgt] at heq
          cases heq

/-- C2 (witness): the amended theorem applied at the decode-failure
outcome and at a concrete opaque pixel buffer. -/
theorem extractColors_bounded_sorted_witness :
    extractColorsFromImage none = getDefaultColors ∧
    (extractColorsFromImage (some [⟨10, 20, 30, 255⟩])).length ≤ 6 :=
  ⟨(extractColors_bounded_sorted none).2.2.2 rfl,
   (extractColors_bounded_sorted (some [⟨10, 20, 30, 255⟩])).1⟩

-- A pixel buffer whose sampled pixels (indices 0, 10 and 20) are two
-- opaque black pixels and one opaque white pixel: three sampled pixels
-- falling into two quantized buckets with counts 2 and 1.
def bucketBugPixels : List Pixel :=
  [⟨0, 0, 0, 255⟩] ++ List.replicate 9 ⟨0, 0, 0, 0⟩ ++
    [⟨0, 0, 0, 255⟩] ++ List.replicate 9 ⟨0, 0, 0, 0⟩ ++ [⟨255, 255, 255, 255⟩]

/-- C3 (code bug): the percentage loop divides each bucket count by
colorMap.size, the number of distinct buckets, although the variable is
named totalPixels and the threshold comment speaks of shares of the
image.  On bucketBugPixels three pixels are sampled into two buckets
with counts 2 and 1, so shares of sampled pixels would be 66.67 and
33.33, yet the code reports 100 and 50. -/
theorem extractColors_percentage_denominator_bug :
    (keptPixels bucketBugPixels).length = 3 ∧
    colorMap bucketBugPixels = [((0, 0, 0), 2), ((256, 256, 256), 1)] ∧
    (extractColorsFromImage (some bucketBugPixels)).map ColorPalette.percentage = [100, 50] ∧
    jsRound2 (((2 : ℚ) / 3) * 100) = 6667 / 100 := by
  have hkept : (keptPixels bucketBugPixels).length = 3 := by decide
  have hmap : colorMap bucketBugPixels = [((0, 0, 0), 2), ((256, 256, 256), 1)] := by decide
  have hjs100 : jsRound2 (100 : ℚ) = 100 := by
    rw [jsRound2, jsRound]
    have hf : ⌊(100 : ℚ) * 100 + 1/2⌋ = 10000 := by
      rw [Int.floor_eq_iff] <;> norm_num
    rw [hf]
    norm_num
  have hjs50 : jsRound2 (50 : ℚ) = 50 := by
    rw [jsRound2, jsRound]
    have hf : ⌊(50 : ℚ) * 100 + 1/2⌋ = 5000 := by
      rw [Int.floor_eq_iff] <;> norm_num
    rw [hf]
    norm_num
  refine ⟨hkept, hmap, ?_, ?_⟩
  · simp only [extractColorsFromImage, hmap]
    simp only [paletteFromCounts, List.length_cons, List.length_nil, List.filterMap_cons,
      List.filterMap_nil]
    norm_num
    simp only [sortByPercentage, List.foldr_cons, List.foldr_nil, insertByPercentage]
    rw [hjs100, hjs50]
    rw [if_neg (by norm_num : ¬ (50 : ℚ) > 100)]
    simp
  · rw [jsRound2, jsRound]
    have hf : ⌊((2 : ℚ) / 3) * 100 * 100 + 1/2⌋ = 6667 := by
      rw [Int.floor_eq_iff] <;> norm_num
    rw [hf]
    norm_num

/-- C9 (counterexample): rgbToHsl rounds the hue of (255, 0, 1) up to
360 degrees, outside the claimed range 0 to 359. -/
theorem rgbToHsl_hue_360 : (rgbToHsl 255 0 1).h = 360 := by
  show jsRound ((hslRaw (((255 : ℕ) : ℚ) / 255) (((0 : ℕ) : ℚ) / 255)
    (((1 : ℕ) : ℚ) / 255)).1 * 360) = 360
  have h255 : (((255 : ℕ) : ℚ) / 255) = 1 := by norm_num
  have h0 : (((0 : ℕ) : ℚ) / 255) = 0 := by norm_num
  have h1 : (((1 : ℕ) : ℚ) / 255) = 1 / 255 := by norm_num
  rw [h255, h0, h1]
  have hraw : (hslRaw 1 0 (1 / 255)).1 = ((0 - 1 / 255) / (1 - 0) + 6) / 6 := by
    simp only [hslRaw]
    have hmx : max (1 : ℚ) (max 0 (1 / 255)) = 1 := by norm_num
    have hmn : min (1 : ℚ) (min 0 (1 / 255)) = 0 := by norm_num
    rw [hmx, hmn]
    rw [if_neg (by norm_num : ¬ (1 : ℚ) = 0)]
    rw [if_pos rfl]
    rw [if_pos (by norm_num : (0 : ℚ) < 1 / 255)]
  rw [hraw, jsRound]
  rw [Int.floor_eq_iff] <;> norm_num

/-- C9 (amended): for channels in 0 to 255, rgbToHsl returns a hue in
0 to 360 inclusive (Math.round can carry a hue just below 360 up to
360) and saturation and lightness in 0 to 100. -/
theorem rgbToHsl_ranges (r g b : ℕ) (hr : r ≤ 255) (hg : g ≤ 255) (hb : b ≤ 255) :
    0 ≤ (rgbToHsl r g b).h ∧ (rgbToHsl r g b).h ≤ 360 ∧
    0 ≤ (rgbToHsl r g b).s ∧ (rgbToHsl r g b).s ≤ 100 ∧
    0 ≤ (rgbToHsl r g b).l ∧ (rgbToHsl r g b).l ≤ 100 := by
  obtain ⟨⟨h1, h2⟩, ⟨h3, h4⟩, h5, h6⟩ := rgbToHsl_bounds hr hg hb
  exact ⟨h1, h2, h3, h4, h5, h6⟩

/-- C9 (witness): the amended range theorem applied at a concrete
color. -/
theorem rgbToHsl_ranges_witness :
    (255 : ℕ) ≤ 255 ∧ (0 ≤ (rgbToHsl 255 0 1).h ∧ (rgbToHsl 255 0 1).h ≤ 360 ∧
      0 ≤ (rgbToHsl 255 0 1).s ∧ (rgbToHsl 255 0 1).s ≤ 100 ∧
      0 ≤ (rgbToHsl 255 0 1).l ∧ (rgbToHsl 255 0 1).l ≤ 100) :=
  ⟨by decide, rgbToHsl_ranges 255 0 1 (by decide) (by decide) (by decide)⟩

/-- C5: combineVisionData concatenates the per-provider containers in
the fixed provider order and de-duplicates keeping first occurrences;
the face count sums the counts of the providers that report one (only
Google does).  On the concrete two-provider example the merged labels
are red, blue, green. -/
theorem combineVisionData_merge (clarifai : Option ClarifaiResult)
    (google : Option GoogleVisionResult) (microsoft : Option MicrosoftVisionResult) :
    (combineVisionData clarifai google microsoft).labels =
      dedupFirst (clarifaiLabels clarifai ++ googleLabels google ++ microsoftLabels microsoft) ∧
    (combineVisionData clarifai google microsoft).objects =
      dedupFirst (googleObjects google ++ microsoftObjects microsoft) ∧
    (combineVisionData clarifai google microsoft).colors =
      dedupFirst (googleColors google ++ microsoftColors microsoft) ∧
    (combineVisionData clarifai google microsoft).text =
      dedupFirst (googleText google ++ microsoftText microsoft) ∧
    (combineVisionData clarifai google microsoft).faces = googleFaces google ∧
    (combineVisionData none (some ⟨["red", "blue"], [], [], [], 0⟩)
        (some ⟨["blue", "green"], [], [], [], []⟩)).labels = ["red", "blue", "green"] := by
  refine ⟨jsDedup_eq_dedupFirst _, jsDedup_eq_dedupFirst _, jsDedup_eq_dedupFirst _,
    jsDedup_eq_dedupFirst _, rfl, ?_⟩
  decide

/-- C6: when all three vision provider calls fail, the aggregation stage
still returns a value whose combined observation has empty labels,
objects, colors and text and a face count of zero. -/
theorem performVisualAnalysis_all_failed :
    (performVisualAnalysis none none none).combined =
      ⟨[], [], [], [], 0, []⟩ := rfl

/-- C7 (counterexample): with a configured key and a reply on which
JSON.parse fails everywhere, analyzeWithOpenAI returns the fabricated
fallback insight object built from the raw reply instead of failing. -/
theorem analyzeWithOpenAI_fabricates_on_parse_failure :
    analyzeWithOpenAI "sk-test" (fun _ => none) "I cannot analyze this image." =
      Except.ok (openAIFallbackResult "I cannot analyze this image.") ∧
    (openAIFallbackResult "I cannot analyze this image.").artisticInsights =
      [("I cannot analyze this image." : String).take 200 ++ "..."] ∧
    (openAIFallbackResult "I cannot analyze this image.").historicalContext =
      "Analysis provided by OpenAI" :=
  ⟨rfl, rfl, rfl⟩

/-- C7 (amended): the apiService interpretation extracts the substring
from the first opening to the last closing brace of the trimmed reply
before parsing and fails when the credential is absent, but on a parse
or validation failure it returns the fixed fabricated fallback object
rather than failing; the educational-service interpretation fails on a
parse failure but parses the reply without brace extraction. -/
theorem interpretation_parse_handling :
    (∀ (key : String) (jp : String → Option OpenAIParsed) (content : String),
      key ≠ "" → jp (extractJsonSubstring content) = none →
        analyzeWithOpenAI key jp content = Except.ok (openAIFallbackResult content)) ∧
    (∀ (jp : String → Option OpenAIParsed) (content : String),
      analyzeWithOpenAI "" jp content = Except.error "OpenAI API key not configured") ∧
    (extractJsonSubstring "Here is the JSON: \x7b\x22a\x22: 1\x7d Thanks!" =
      "\x7b\x22a\x22: 1\x7d") ∧
    (∀ (key : String) (jp : String → Option InterpretationInsight) (content : String),
      key ≠ "" → jp content = none →
        generateInitialInterpretation key jp content =
          Except.error "SyntaxError: unexpected token in JSON") ∧
    (∀ (jp : String → Option InterpretationInsight) (content : String),
      generateInitialInterpretation "" jp content =
        Except.error "OpenAI API key required for educational analysis") := by
  refine ⟨?_, ?_, ?_, ?_, ?_⟩
  · intro key jp content hkey hjp
    rw [analyzeWithOpenAI, if_neg hkey, hjp]
  · intro jp content
    rw [analyzeWithOpenAI, if_pos rfl]
  · decide
  · intro key jp content hkey hjp
    rw [generateInitialInterpretation, if_neg hkey, hjp]
  · intro jp content
    rw [generateInitialInterpretation, if_pos rfl]

/-- C7 (witness): the amended theorem applied at a configured key, the
constantly failing parse oracle and a concrete reply. -/
theorem interpretation_parse_handling_witness :
    ("sk-live" : String) ≠ "" ∧
    analyzeWithOpenAI "sk-live" (fun _ => none) "no json here" =
      Except.ok (openAIFallbackResult "no json here") ∧
    generateInitialInterpretation "sk-live" (fun _ => none) "no json here" =
      Except.error "SyntaxError: unexpected token in JSON" :=
  ⟨by decide,
   interpretation_parse_handling.1 "sk-live" (fun _ => none) "no json here" (by decide) rfl,
   interpretation_parse_handling.2.2.2.1 "sk-live" (fun _ => none) "no json here" (by decide) rfl⟩

/-- C8: calculateConfidence is the 0.5 base plus one 0.1 increment per
present upstream signal, capped at 1; with only labels and objects
present it equals 0.7, and the base plus all five increments is at most
1. -/
theorem calculateConfidence_increments (visionData : CombinedVisionData)
    (initialInsights : InterpretationInsight) (recallData : RecallData) :
    calculateConfidence visionData initialInsights recallData =
      min (1/2 + (presentSignalCount visionData initialInsights recallData : ℚ) * (1/10)) 1 ∧
    (visionData.labels ≠ [] → visionData.objects ≠ [] → visionData.colors = [] →
      initialInsights.styleInsights = [] → recallData.historicalContext = none →
        calculateConfidence visionData initialInsights recallData = 7/10) ∧
    (1/2 + (5 : ℚ) * (1/10) ≤ 1) := by
  refine ⟨?_, ?_, by norm_num⟩
  · simp only [calculateConfidence, presentSignalCount]
    split_ifs <;> norm_num
  · intro h1 h2 h3 h4 h5
    have hl1 : 0 < visionData.labels.length := List.length_pos.mpr h1
    have hl2 : 0 < visionData.objects.length := List.length_pos.mpr h2
    have hl3 : ¬ 0 < visionData.colors.length := by simp [h3]
    have hl4 : ¬ 0 < initialInsights.styleInsights.length := by simp [h4]
    have hl5 : ¬ recallData.historicalContext.isSome := by simp [h5]
    simp only [calculateConfidence, if_pos hl1, if_pos hl2, if_neg hl3, if_neg hl4,
      if_neg hl5]
    norm_num

/-- C8 (witness): the confidence theorem applied at concrete data with
only labels and objects present. -/
theorem calculateConfidence_increments_witness :
    (["painting"] : List String) ≠ [] ∧
    calculateConfidence ⟨["painting"], ["frame"], [], [], 0, []⟩
      ⟨[], [], [], [], [], []⟩ ⟨none⟩ = 7/10 :=
  ⟨by decide,
   (calculateConfidence_increments ⟨["painting"], ["frame"], [], [], 0, []⟩
      ⟨[], [], [], [], [], []⟩ ⟨none⟩).2.1
     (by decide) (by decide) rfl rfl rfl⟩

/-- C10 (counterexample): the setup guides document the placeholder
value your_artsearch_key for the artSearch credential, but
checkApiStatus only tests nonemptiness for artSearch, so a
configuration holding exactly the documented placeholder is reported
available, where the claim requires false. -/
theorem checkApiStatus_artsearch_placeholder :
    (checkApiStatus ⟨"", "", "", "", "", "", "", "", "your_artsearch_key"⟩).artSearch = true ∧
    ("your_artsearch_key" : String) ≠ "" := by
  refine ⟨?_, by decide⟩
  decide

/-- C10 (amended): checkApiStatus is a pure function of the
configuration: the keyless providers are always reported available;
googleVision, microsoftVision, openai and harvard are reported
available exactly when their configured values are nonempty and differ
from their documented placeholders; artSearch is reported available
exactly when its credential is nonempty, with no placeholder
comparison, so even the documented placeholder your_artsearch_key
counts as configured. -/
theorem checkApiStatus_config_only (k : ApiKeys) :
    (checkApiStatus k).artInstitute = true ∧
    (checkApiStatus k).rijksmuseum = true ∧
    (checkApiStatus k).metMuseum = true ∧
    (checkApiStatus k).wikipedia = true ∧
    ((checkApiStatus k).googleVision = true ↔
      k.googleVision ≠ "" ∧ k.googleVision ≠ "your_google_vision_api_key_here") ∧
    ((checkApiStatus k).microsoftVision = true ↔
      k.microsoftVision ≠ "" ∧ k.microsoftEndpoint ≠ "" ∧
      k.microsoftVision ≠ "your_microsoft_vision_api_key_here" ∧
      k.microsoftEndpoint ≠ "your_microsoft_vision_endpoint_here") ∧
    ((checkApiStatus k).openai = true ↔
      k.openai ≠ "" ∧ k.openai ≠ "your_openai_api_key_here") ∧
    ((checkApiStatus k).harvard = true ↔
      k.harvard ≠ "" ∧ k.harvard ≠ "your_harvard_art_museums_api_key_here") ∧
    ((checkApiStatus k).artSearch = true ↔ k.artsearch ≠ "") := by
  simp [checkApiStatus]

/-- C1: for every combination of present and absent upstream inputs the
summary compositor joins exactly forty sentence-units: the twenty topic
slots, each holding its data-derived sentence when the corresponding
upstream data is present and its fixed canned sentence otherwise,
followed by twenty repetitions of the fixed padding sentence. -/
theorem generateAnalysisSummary_forty_units (results : List ArtworkAnalysis)
    (openAIAnalysis : Option OpenAIAnalysisResult)
    (metMuseumData : Option MetMuseumArtwork)
    (colorAnalysis : Option ColorAnalysis)
    (wikipediaData : Option WikipediaData)
    (similarArtworks : List ArtworkAnalysis) :
    generateAnalysisSummary results openAIAnalysis metMuseumData colorAnalysis
        wikipediaData similarArtworks =
      composeSummary results openAIAnalysis metMuseumData colorAnalysis
        wikipediaData similarArtworks ∧
    (composeSummaryUnits results openAIAnalysis metMuseumData colorAnalysis
        wikipediaData similarArtworks).length = 40 ∧
    (summarySlots results openAIAnalysis metMuseumData colorAnalysis
        wikipediaData similarArtworks).length = 20 ∧
    composeSummaryUnits results openAIAnalysis metMuseumData colorAnalysis
        wikipediaData similarArtworks =
      summarySlots results openAIAnalysis metMuseumData colorAnalysis
        wikipediaData similarArtworks ++ List.replicate 20 paddingSentence := by
  have hslots : (summarySlots results openAIAnalysis metMuseumData colorAnalysis
      wikipediaData similarArtworks).length = 20 := by
    simp [summarySlots]
  refine ⟨?_, ?_, hslots, rfl⟩
  · rw [generateAnalysisSummary, composeSummary, composeSummaryUnits, padSummary_eq, hslots]
    norm_num
    rw [List.take_of_length_le]
    simp [List.length_append, hslots]
  · rw [composeSummaryUnits, List.length_append, hslots, List.length_replicate]
